import Mathlib

/-
  Shallow embedding of the prison-escape game (src/src/main.rs).

  The Rust program is a turn-based grid game: a `World` of three `Map`s, each a
  23 x 81 tile grid (`[[Tile; 81]; 23]`) with a list of entities (`Thing`s),
  the player ("Prisoner") by convention at index 0.  Each key press runs one
  turn of `main`'s event loop: resolve the arrow key to a delta, move the
  player via `Map::move_entity`, move every other entity by an independent
  random delta in -2..=2, then check guard collisions (health -= 50 on usize),
  then resolve the tile under the player (Door transition / win, Key pickup).

  Modelling decisions, all from the source:
  * Coordinates are `u8` in Rust; every value the program ever stores is < 80
    (or a small constant), far below 256, so plain `Nat` is exact.
    Deltas are `i8` widened to `i16`; `Int` is exact for that arithmetic.
  * `health` is `usize`.  `health -= 50` wraps modulo 2^64 in release builds
    (and panics in debug builds); we model the release (wrapping) semantics
    with `usizeSub` so that the post-state is a definite value.
  * Rust array/`Vec` indexing panics out of bounds.  `tiles[y][x]` is only
    ever reached with y < 23 and x < 80 (guarded by `move_entity`'s range
    check and by the player's position invariant), so list `getD` access is
    exact there.  `entities[which]` is only called with `which` below the
    entity-list length; theorems that quantify over indices carry that bound.
    The one indexing panic that *is* reachable in the turn logic —
    `world.maps[current_map]` after the door transition has set
    `current_map = maps.len()` — is recorded explicitly by the `panicked`
    flag of `GameState`, with the state frozen as it was at the panic point.
  * The per-adversary random draws of `rng.gen_range(-2..=2)` enter the turn
    function as an explicit list `draws` of (dx, dy) pairs.
-/

/-- Rust `struct DoorID(usize)` (line 18): newtype over the door number. -/
structure DoorID where
  id : Nat
deriving DecidableEq, Repr

/-- Rust `enum Tile` (lines 10-15): terrain kinds of one grid cell. -/
inductive Tile where
  | Empty : Tile
  | Wall : Tile
  | Key : DoorID → Tile
  | Door : DoorID → Tile
deriving DecidableEq, Repr

/-- Rust `enum ThingType` (lines 23-26): the two entity kinds. -/
inductive ThingType where
  | Prisoner : ThingType
  | Guard : ThingType
deriving DecidableEq, Repr

/-- Rust `struct Thing` (lines 19-22): an entity with a (u8, u8) position. -/
structure Thing where
  position : Nat × Nat
  thing_type : ThingType
deriving DecidableEq, Repr

/-- Rust `struct Map` (lines 5-8): the 23 x 81 tile grid (represented as a
list of rows, row-major like `tiles[y][x]`) plus the entity list; the player
is by convention the 0th entity. -/
structure GameMap where
  tiles : List (List Tile)
  entities : List Thing
deriving DecidableEq, Repr

/-- Rust `struct World` (lines 1-4): the maps and the index of the current one. -/
structure World where
  maps : List GameMap
  current_map : Nat
deriving DecidableEq, Repr

/-- Rust `struct PrisonerState` (lines 28-31): collected keys and usize health. -/
structure PrisonerState where
  keys : List DoorID
  health : Nat
deriving DecidableEq, Repr

/-- The mutable state of `main`'s event loop: `world`, `prisoner_state` and the
`game_over` flag (lines 149-182).  `panicked` records that the Rust program hit
an out-of-bounds `Vec` index (which aborts the process); the other fields then
hold the values they had at the panic point. -/
structure GameState where
  world : World
  prisoner_state : PrisonerState
  game_over : Bool
  panicked : Bool
deriving DecidableEq, Repr

/-- The key events the loop distinguishes (lines 204-219): the four arrows,
Esc (quit), and every other key (`_ => (0,0)`). -/
inductive KeyCode where
  | Left : KeyCode
  | Right : KeyCode
  | Up : KeyCode
  | Down : KeyCode
  | Esc : KeyCode
  | Other : KeyCode
deriving DecidableEq, Repr

/-- Input resolution (lines 213-219): arrow keys map to unit deltas, anything
else to (0,0). -/
def deltaOf : KeyCode → Int × Int
  | KeyCode.Left => (-1, 0)
  | KeyCode.Right => (1, 0)
  | KeyCode.Up => (0, -1)
  | KeyCode.Down => (0, 1)
  | _ => (0, 0)

/-- Read `tiles[y][x]`.  Every access the program performs is in range of the
23 x 81 grid (see the header comment), so the `getD` defaults are never the
value actually read in a well-formed state. -/
def tileAt (m : GameMap) (y x : Nat) : Tile :=
  (m.tiles.getD y []).getD x Tile.Empty

/-- Write `tiles[y][x] = t` (`List.set` is a no-op out of range; the program
only writes at the player's in-range position). -/
def setTile (rows : List (List Tile)) (y x : Nat) (t : Tile) : List (List Tile) :=
  rows.set y ((rows.getD y []).set x t)

/-- Default used for `getD` on entity lists; call sites always index in range. -/
def defaultThing : Thing :=
  { position := (0, 0), thing_type := ThingType.Prisoner }

/-- Default used for `getD` on the maps list; call sites always index in range
except at the recorded panic. -/
def emptyMap : GameMap :=
  { tiles := [], entities := [] }

/-- Wrapping usize subtraction: `a - b` modulo 2^64 = 18446744073709551616,
the release-build semantics of Rust's `health -= 50` (line 236); debug builds
panic when b > a.  Written as a case split (equal to `(a + (2^64 - b % 2^64))
% 2^64` for all a, b) so that partial reduction on open terms stays cheap. -/
def usizeSub (a b : Nat) : Nat :=
  if b % 18446744073709551616 ≤ a % 18446744073709551616 then
    a % 18446744073709551616 - b % 18446744073709551616
  else
    18446744073709551616 - (b % 18446744073709551616 - a % 18446744073709551616)

/-- Rust `Map::move_entity` (lines 95-107).  Computes the candidate position,
returns `(self, false)` (no mutation) when the candidate fails the range check
`(0..80, 0..23)` or the destination tile is a Wall, else commits the position
and returns true.  `entities[which]` is modelled with `getD`; every call site
passes an index below the entity-list length. -/
def move_entity (m : GameMap) (which : Nat) (dx dy : Int) : GameMap × Bool :=
  let e := m.entities.getD which defaultThing
  let to_x : Int := (e.position.1 : Int) + dx
  let to_y : Int := (e.position.2 : Int) + dy
  if ¬(0 ≤ to_x ∧ to_x < 80) ∨ ¬(0 ≤ to_y ∧ to_y < 23) then (m, false)
  else if tileAt m to_y.toNat to_x.toNat = Tile.Wall then (m, false)
  else
    let moved : Thing := { e with position := (to_x.toNat, to_y.toNat) }
    ({ m with entities := m.entities.set which moved }, true)

/-- The adversary loop (lines 225-229): entities 1 .. len-1 each attempt a move
by the next random draw, in index order; failed moves are ignored. -/
def adversaryMoves (m : GameMap) (draws : List (Int × Int)) : GameMap :=
  (List.range (m.entities.length - 1)).foldl
    (fun acc i =>
      (move_entity acc (i + 1) (draws.getD i (0, 0)).1 (draws.getD i (0, 0)).2).1)
    m

/-- The whole movement phase of one turn (lines 213-229): player move by the
resolved delta (result ignored), then the adversary loop. -/
def movementPhase (m : GameMap) (code : KeyCode) (draws : List (Int × Int)) : GameMap :=
  adversaryMoves (move_entity m 0 (deltaOf code).1 (deltaOf code).2).1 draws

/-- The candidate position `(to_x, to_y)` that `Map::move_entity` computes
(lines 96-98): the entity's current position plus the delta, in exact `i16`
arithmetic. -/
def candidate (m : GameMap) (which : Nat) (dx dy : Int) : Int × Int :=
  (((m.entities.getD which defaultThing).position.1 : Int) + dx,
   ((m.entities.getD which defaultThing).position.2 : Int) + dy)

/-- The entity record as committed by a successful `move_entity` (line 105):
the same entity with its position overwritten by the candidate. -/
def movedThing (m : GameMap) (which : Nat) (dx dy : Int) : Thing :=
  { m.entities.getD which defaultThing with
    position := ((candidate m which dx dy).1.toNat, (candidate m which dx dy).2.toNat) }

/-- The blank status message every turn starts with (lines 208-211): 80 spaces. -/
def blankStatus : String :=
  "                                                                                "

/-- The triple mutated by the collision loop and the tile resolution:
`prisoner_state`, `game_over`, and the status message of the turn. -/
structure CollisionOut where
  ps : PrisonerState
  game_over : Bool
  status : String
deriving DecidableEq, Repr

/-- The body of the collision loop for one entity (lines 233-247): a Guard
standing on the player's position costs 50 health (wrapping usize); at exactly
0 the game ends with the death message, otherwise the hit message is set. -/
def guardHit (pp : Nat × Nat) (acc : CollisionOut) (ent : Thing) : CollisionOut :=
  match ent.thing_type with
  | ThingType.Guard =>
    if ent.position = pp then
      let h := usizeSub acc.ps.health 50
      if h = 0 then
        { ps := { keys := acc.ps.keys, health := h },
          game_over := true, status := "You died! Game Over" }
      else
        { ps := { keys := acc.ps.keys, health := h },
          game_over := acc.game_over, status := "A guard hit you" }
    else acc
  | ThingType.Prisoner => acc

/-- The collision loop (lines 233-247): fold `guardHit` over
`map.entities[1..]` in order. -/
def guardCollisions (l : List Thing) (pp : Nat × Nat) (init : CollisionOut) : CollisionOut :=
  l.foldl (guardHit pp) init

/-- `world.maps[world.current_map]` (line 221). -/
def currentMap (s : GameState) : GameMap :=
  s.world.maps.getD s.world.current_map emptyMap

/-- The current map after the movement phase of a turn. -/
def afterMoves (s : GameState) (code : KeyCode) (draws : List (Int × Int)) : GameMap :=
  movementPhase (currentMap s) code draws

/-- `map.entities[0].position` re-read after the movement phase (line 231). -/
def playerPosAfter (s : GameState) (code : KeyCode) (draws : List (Int × Int)) : Nat × Nat :=
  ((afterMoves s code draws).entities.getD 0 defaultThing).position

/-- `map.tiles[y][x]` at the player's post-movement position (lines 249, 275). -/
def playerTileAfter (s : GameState) (code : KeyCode) (draws : List (Int × Int)) : Tile :=
  tileAt (afterMoves s code draws) (playerPosAfter s code draws).2
    (playerPosAfter s code draws).1

/-- The collision-loop output of a turn (lines 233-247), starting from the
turn's prisoner state, game_over flag and the blank status. -/
def collisionOut (s : GameState) (code : KeyCode) (draws : List (Int × Int)) : CollisionOut :=
  guardCollisions ((afterMoves s code draws).entities.drop 1)
    (playerPosAfter s code draws)
    { ps := s.prisoner_state, game_over := s.game_over, status := blankStatus }

/-- The fixed entry position of an unlocked non-exit door transition
(lines 258-266): (6,0) for Door(1), (74,0) for Door(0), (40,0) otherwise. -/
def doorEntry (d : DoorID) : Nat × Nat :=
  if d = DoorID.mk 1 then (6, 0)
  else if d = DoorID.mk 0 then (74, 0)
  else (40, 0)

/-- The status message of an unlocked non-exit door transition (lines 258-266),
chosen by the same door-id cases as `doorEntry`. -/
def doorMsg (d : DoorID) : String :=
  if d = DoorID.mk 1 then "You are entering the infirmary              "
  else if d = DoorID.mk 0 then "You are entering the cafeteria              "
  else "Find your way through the tunnels                   "

/-- The collision check plus tile resolution of one turn (lines 231-280),
applied after the movement phase: the match on the player's tile performs the
Door / Key / nothing dispatch of lines 249-280. -/
def resolveTile (s : GameState) (code : KeyCode) (draws : List (Int × Int)) : GameState × String :=
  let cm := s.world.current_map
  let map2 := afterMoves s code draws
  let pp := playerPosAfter s code draws
  let c := collisionOut s code draws
  match playerTileAfter s code draws with
  | Tile.Door door_id =>
    if door_id = DoorID.mk 3 then
      ({ world := { maps := s.world.maps.set cm map2, current_map := cm },
         prisoner_state := c.ps, game_over := true, panicked := s.panicked },
       "You made it out! Enjoy your freedom          ")
    else if door_id ∈ c.ps.keys then
      let player := map2.entities.getD 0 defaultThing
      let mapSrc : GameMap := { map2 with entities := map2.entities.drop 1 }
      let player2 : Thing := { player with position := doorEntry door_id }
      let maps1 := s.world.maps.set cm mapSrc
      if cm + 1 < maps1.length then
        let mapDst := maps1.getD (cm + 1) emptyMap
        let mapDst2 : GameMap := { mapDst with entities := player2 :: mapDst.entities }
        ({ world := { maps := maps1.set (cm + 1) mapDst2, current_map := cm + 1 },
           prisoner_state := c.ps, game_over := c.game_over, panicked := s.panicked },
         doorMsg door_id)
      else
        ({ world := { maps := maps1, current_map := cm + 1 },
           prisoner_state := c.ps, game_over := c.game_over, panicked := true },
         doorMsg door_id)
    else
      ({ world := { maps := s.world.maps.set cm map2, current_map := cm },
         prisoner_state := c.ps, game_over := c.game_over, panicked := s.panicked },
       "You need a key or the right key to open this door!          ")
  | Tile.Key door_id =>
    let map3 : GameMap := { map2 with tiles := setTile map2.tiles pp.2 pp.1 Tile.Empty }
    ({ world := { maps := s.world.maps.set cm map3, current_map := cm },
       prisoner_state := { keys := c.ps.keys ++ [door_id], health := c.ps.health },
       game_over := c.game_over, panicked := s.panicked },
     "You collected a key!                   ")
  | _ =>
    ({ world := { maps := s.world.maps.set cm map2, current_map := cm },
       prisoner_state := c.ps, game_over := c.game_over, panicked := s.panicked },
     c.status)

/-- One processed turn (see the doc comment above `resolveTile`): the guard on
the way in (current map index in range, player entity present) models the
`Vec` indexing every turn performs before anything else; then movement,
collisions and tile resolution run. -/
def runTurn (s : GameState) (code : KeyCode) (draws : List (Int × Int)) : GameState × String :=
  if s.world.current_map < s.world.maps.length ∧ (currentMap s).entities ≠ [] then
    resolveTile s code draws
  else ({ s with panicked := true }, blankStatus)

/-- Outcome of one iteration of the event loop for a key press
(lines 202-296): Esc breaks out, `game_over` makes the iteration a `continue`
that touches nothing, and otherwise the turn runs and a status is rendered. -/
inductive LoopOut where
  | brk : LoopOut
  | skipped : GameState → LoopOut
  | ran : GameState → String → LoopOut
deriving DecidableEq, Repr

/-- One iteration of the event loop for a key press (lines 202-296). -/
def loopStep (s : GameState) (code : KeyCode) (draws : List (Int × Int)) : LoopOut :=
  if code = KeyCode.Esc then LoopOut.brk
  else if s.game_over then LoopOut.skipped s
  else
    let r := runTurn s code draws
    LoopOut.ran r.1 r.2

/-- Whether one entity triggers the collision branch (lines 234-235): it is a
Guard and stands exactly on the player's position. -/
def hitsPlayer (pp : Nat × Nat) (t : Thing) : Bool :=
  decide (t.thing_type = ThingType.Guard) && decide (t.position = pp)

/-- The state update one matching guard performs (lines 236-244), factored out
of `guardHit`: subtract 50 health (wrapping usize), and either the death
message with `game_over` or the hit message. -/
def hitUpdate (acc : CollisionOut) : CollisionOut :=
  if usizeSub acc.ps.health 50 = 0 then
    { ps := { keys := acc.ps.keys, health := usizeSub acc.ps.health 50 },
      game_over := true, status := "You died! Game Over" }
  else
    { ps := { keys := acc.ps.keys, health := usizeSub acc.ps.health 50 },
      game_over := acc.game_over, status := "A guard hit you" }

/-- A full-size 23 x 81 grid of Empty tiles, for concrete test states. -/
def fullEmptyGrid : List (List Tile) :=
  List.replicate 23 (List.replicate 81 Tile.Empty)

/-- A full-size grid that is Empty except for one given tile at row y, column x. -/
def gridWithTile (y x : Nat) (t : Tile) : List (List Tile) :=
  fullEmptyGrid.set y ((List.replicate 81 Tile.Empty).set x t)

/-- A full-size grid of Wall tiles except one Empty tile at row y, column x. -/
def wallGridWithHole (y x : Nat) : List (List Tile) :=
  (List.replicate 23 (List.replicate 81 Tile.Wall)).set y
    ((List.replicate 81 Tile.Wall).set x Tile.Empty)

/-- A prisoner entity at the given position. -/
def mkPrisoner (p : Nat × Nat) : Thing :=
  { position := p, thing_type := ThingType.Prisoner }

/-- A guard entity at the given position. -/
def mkGuard (p : Nat × Nat) : Thing :=
  { position := p, thing_type := ThingType.Guard }

/-- A concrete all-Empty map with a single prisoner at (5, 5). -/
def plainMap : GameMap :=
  { tiles := fullEmptyGrid, entities := [mkPrisoner (5, 5)] }

/-- A concrete all-Wall map with a single Empty tile at (x, y) = (3, 5) and a
guard at (1, 5), two cells to its left: the cell (2, 5) strictly between the
guard and the Empty tile is a Wall. -/
def wallTestMap : GameMap :=
  { tiles := wallGridWithHole 5 3, entities := [mkGuard (1, 5)] }

/-- A concrete mid-game state: health 100, a prisoner and two guards already on
the same Empty tile of an all-Empty map. -/
def twoGuardState : GameState :=
  { world := { maps := [{ tiles := fullEmptyGrid,
                          entities := [mkPrisoner (5, 5), mkGuard (5, 5), mkGuard (5, 5)] }],
               current_map := 0 },
    prisoner_state := { keys := [], health := 100 },
    game_over := false, panicked := false }

/-- A concrete mid-game state: health 100, a prisoner and three guards on the
same Empty tile of an all-Empty map. -/
def threeGuardState : GameState :=
  { world := { maps := [{ tiles := fullEmptyGrid,
                          entities := [mkPrisoner (5, 5), mkGuard (5, 5), mkGuard (5, 5),
                                       mkGuard (5, 5)] }],
               current_map := 0 },
    prisoner_state := { keys := [], health := 100 },
    game_over := false, panicked := false }

/-- A concrete mid-game state on the last map (index 2 of 3), the player
standing on a Door(0) tile with DoorID 0 already collected. -/
def lastMapDoorState : GameState :=
  { world := { maps := [emptyMap, emptyMap,
                        { tiles := gridWithTile 0 0 (Tile.Door (DoorID.mk 0)),
                          entities := [mkPrisoner (0, 0)] }],
               current_map := 2 },
    prisoner_state := { keys := [DoorID.mk 0], health := 100 },
    game_over := false, panicked := false }

/-- A concrete mid-game state with no adversaries and the player standing on a
Key(2) tile. -/
def keyTileState : GameState :=
  { world := { maps := [{ tiles := gridWithTile 0 0 (Tile.Key (DoorID.mk 2)),
                          entities := [mkPrisoner (0, 0)] }],
               current_map := 0 },
    prisoner_state := { keys := [], health := 100 },
    game_over := false, panicked := false }

/-- The current map as left by the Key branch (lines 275-280): the map after
the movement phase with the player's tile overwritten by Empty. -/
def pickedMap (s : GameState) (code : KeyCode) (draws : List (Int × Int)) : GameMap :=
  { afterMoves s code draws with
    tiles := setTile (afterMoves s code draws).tiles
      (playerPosAfter s code draws).2 (playerPosAfter s code draws).1 Tile.Empty }

/-- The source map as left by a door transition (line 257): the map after the
movement phase with entity 0 (the player) removed. -/
def srcMapAfter (s : GameState) (code : KeyCode) (draws : List (Int × Int)) : GameMap :=
  { afterMoves s code draws with
    entities := (afterMoves s code draws).entities.drop 1 }

/-- The player entity as re-inserted by a door transition (lines 257-266): the
removed entity 0 with its position overwritten by the door's entry position. -/
def transferredPlayer (s : GameState) (code : KeyCode) (draws : List (Int × Int))
    (d : DoorID) : Thing :=
  { (afterMoves s code draws).entities.getD 0 defaultThing with position := doorEntry d }

/-- The destination map as left by a door transition (line 268): the map at
index current_map + 1 — after the source map was written back — with the
transferred player inserted at index 0. -/
def dstMapAfter (s : GameState) (code : KeyCode) (draws : List (Int × Int))
    (d : DoorID) : GameMap :=
  { (s.world.maps.set s.world.current_map (srcMapAfter s code draws)).getD
      (s.world.current_map + 1) emptyMap with
    entities := transferredPlayer s code draws d ::
      ((s.world.maps.set s.world.current_map (srcMapAfter s code draws)).getD
        (s.world.current_map + 1) emptyMap).entities }

/-- A concrete mid-game state: the player standing on the exit door Door(3),
no guards, empty key set. -/
def exitDoorState : GameState :=
  { world := { maps := [{ tiles := gridWithTile 0 0 (Tile.Door (DoorID.mk 3)),
                          entities := [mkPrisoner (0, 0)] }],
               current_map := 0 },
    prisoner_state := { keys := [], health := 100 },
    game_over := false, panicked := false }

/-- A concrete mid-game state: two maps, the player standing on a Door(0) tile
of map 0 with DoorID 0 collected, a guard far away on each map. -/
def doorTransitionState : GameState :=
  { world := { maps := [{ tiles := gridWithTile 0 0 (Tile.Door (DoorID.mk 0)),
                          entities := [mkPrisoner (0, 0), mkGuard (9, 9)] },
                        { tiles := fullEmptyGrid, entities := [mkGuard (3, 3)] }],
               current_map := 0 },
    prisoner_state := { keys := [DoorID.mk 0], health := 100 },
    game_over := false, panicked := false }

/-- A concrete mid-game state: health 100, a prisoner and exactly one guard on
the same Empty tile of an all-Empty map. -/
def singleGuardState : GameState :=
  { world := { maps := [{ tiles := fullEmptyGrid,
                          entities := [mkPrisoner (5, 5), mkGuard (5, 5)] }],
               current_map := 0 },
    prisoner_state := { keys := [], health := 100 },
    game_over := false, panicked := false }

/-- A concrete mid-game state: the player alone (no adversaries) on an Empty
tile of an all-Empty map. -/
def noGuardState : GameState :=
  { world := { maps := [plainMap], current_map := 0 },
    prisoner_state := { keys := [], health := 100 },
    game_over := false, panicked := false }

/-- Reading an index just written by `List.set` gives the written value. -/
theorem getD_set_self {α : Type} (l : List α) (n : Nat) (a d : α) (h : n < l.length) :
    (l.set n a).getD n d = a := by
  induction l generalizing n with
  | nil => simp at h
  | cons x xs ih =>
    cases n with
    | zero => rfl
    | succ k =>
      have hk : k < xs.length := by simpa using h
      simpa [List.set, List.getD_cons_succ] using ih k hk

/-- Writing back the value already stored at an in-range index is a no-op. -/
theorem set_getD_self {α : Type} (l : List α) (n : Nat) (d : α) (h : n < l.length) :
    l.set n (l.getD n d) = l := by
  induction l generalizing n with
  | nil => simp at h
  | cons x xs ih =>
    cases n with
    | zero => rfl
    | succ k =>
      have hk : k < xs.length := by simpa using h
      simpa [List.set, List.getD_cons_succ] using ih k hk

/-- `getD` past the end of the list gives the default. -/
theorem getD_of_length_le {α : Type} (l : List α) (n : Nat) (d : α) (h : l.length ≤ n) :
    l.getD n d = d := by
  induction l generalizing n with
  | nil => cases n <;> rfl
  | cons x xs ih =>
    cases n with
    | zero => simp at h
    | succ k => simpa [List.getD_cons_succ] using ih k (by simpa using h)

/-- `List.set` past the end of the list is a no-op. -/
theorem set_of_length_le {α : Type} (l : List α) (n : Nat) (a : α) (h : l.length ≤ n) :
    l.set n a = l := by
  induction l generalizing n with
  | nil => rfl
  | cons x xs ih =>
    cases n with
    | zero => simp at h
    | succ k => simpa [List.set] using ih k (by simpa using h)

/-- `move_entity` never changes the tile grid. -/
theorem move_entity_tiles (m : GameMap) (which : Nat) (dx dy : Int) :
    (move_entity m which dx dy).1.tiles = m.tiles := by
  unfold move_entity
  dsimp only
  split
  · rfl
  · split <;> rfl

/-- The adversary loop never changes the tile grid. -/
theorem adversaryMoves_tiles (m : GameMap) (draws : List (Int × Int)) :
    (adversaryMoves m draws).tiles = m.tiles := by
  unfold adversaryMoves
  generalize List.range (m.entities.length - 1) = l
  induction l generalizing m with
  | nil => rfl
  | cons i t ih =>
    calc ((i :: t).foldl
            (fun acc j =>
              (move_entity acc (j + 1) (draws.getD j (0, 0)).1 (draws.getD j (0, 0)).2).1)
            m).tiles
        = (move_entity m (i + 1) (draws.getD i (0, 0)).1 (draws.getD i (0, 0)).2).1.tiles :=
          ih _
      _ = m.tiles := move_entity_tiles _ _ _ _

/-- The whole movement phase never changes the tile grid. -/
theorem movementPhase_tiles (m : GameMap) (code : KeyCode) (draws : List (Int × Int)) :
    (movementPhase m code draws).tiles = m.tiles := by
  unfold movementPhase
  rw [adversaryMoves_tiles, move_entity_tiles]

/-- The movement phase of a turn keeps the tile grid of the current map. -/
theorem afterMoves_tiles (s : GameState) (code : KeyCode) (draws : List (Int × Int)) :
    (afterMoves s code draws).tiles = (currentMap s).tiles := by
  unfold afterMoves
  exact movementPhase_tiles _ _ _

/-- Overwriting one map of the world with a map holding the same tile grid
keeps the tile grids of all maps. -/
theorem map_tiles_set (maps : List GameMap) (cm : Nat) (m2 : GameMap)
    (h : m2.tiles = (maps.getD cm emptyMap).tiles) (hcm : cm < maps.length) :
    (maps.set cm m2).map (fun mp => mp.tiles) = maps.map (fun mp => mp.tiles) := by
  induction maps generalizing cm with
  | nil => simp at hcm
  | cons x xs ih =>
    cases cm with
    | zero =>
      simp only [List.set, List.map_cons]
      rw [show m2.tiles = x.tiles from h]
    | succ k =>
      have hk : k < xs.length := by simpa using hcm
      simp only [List.set, List.map_cons]
      rw [ih k (by simpa [List.getD_cons_succ] using h) hk]

/-- On a Guard entity, `guardHit` is an if-then-else around `hitUpdate`. -/
theorem guardHit_eq (pp : Nat × Nat) (acc : CollisionOut) (pos : Nat × Nat) :
    guardHit pp acc { position := pos, thing_type := ThingType.Guard } =
      if pos = pp then hitUpdate acc else acc := by
  show (if pos = pp then _ else acc) = if pos = pp then hitUpdate acc else acc
  split
  · show (if usizeSub acc.ps.health 50 = 0 then _ else _) = hitUpdate acc
    unfold hitUpdate
    split <;> rfl
  · rfl

/-- `hitUpdate` never touches the key list. -/
theorem hitUpdate_keys (acc : CollisionOut) :
    (hitUpdate acc).ps.keys = acc.ps.keys := by
  unfold hitUpdate
  split <;> rfl

/-- One step of the collision loop never touches the key list. -/
theorem guardHit_keys (pp : Nat × Nat) (acc : CollisionOut) (ent : Thing) :
    (guardHit pp acc ent).ps.keys = acc.ps.keys := by
  rcases ent with ⟨pos, tt⟩
  cases tt with
  | Prisoner => rfl
  | Guard =>
    rw [guardHit_eq]
    split
    · exact hitUpdate_keys acc
    · rfl

/-- The collision loop never touches the key list. -/
theorem guardCollisions_keys (l : List Thing) (pp : Nat × Nat) (init : CollisionOut) :
    (guardCollisions l pp init).ps.keys = init.ps.keys := by
  induction l generalizing init with
  | nil => rfl
  | cons e t ih =>
    show (guardCollisions t pp (guardHit pp init e)).ps.keys = init.ps.keys
    rw [ih, guardHit_keys]

/-- A non-matching entity leaves the collision accumulator unchanged. -/
theorem guardHit_not_hit (pp : Nat × Nat) (acc : CollisionOut) (ent : Thing)
    (h : hitsPlayer pp ent = false) : guardHit pp acc ent = acc := by
  rcases ent with ⟨pos, tt⟩
  cases tt with
  | Prisoner => rfl
  | Guard =>
    have hp : ¬pos = pp := by simpa [hitsPlayer] using h
    rw [guardHit_eq, if_neg hp]

/-- A matching guard performs exactly the `hitUpdate` step. -/
theorem guardHit_hit (pp : Nat × Nat) (acc : CollisionOut) (ent : Thing)
    (h : hitsPlayer pp ent = true) : guardHit pp acc ent = hitUpdate acc := by
  rcases ent with ⟨pos, tt⟩
  cases tt with
  | Prisoner => simp [hitsPlayer] at h
  | Guard =>
    have hp : pos = pp := by simpa [hitsPlayer] using h
    rw [guardHit_eq, if_pos hp]

/-- With no matching guard, the collision loop changes nothing. -/
theorem guardCollisions_no_hit (l : List Thing) (pp : Nat × Nat) (init : CollisionOut)
    (h : l.countP (hitsPlayer pp) = 0) : guardCollisions l pp init = init := by
  induction l generalizing init with
  | nil => rfl
  | cons e t ih =>
    rw [List.countP_cons] at h
    have he : hitsPlayer pp e = false := by
      by_cases hb : hitsPlayer pp e
      · simp [hb] at h
      · simpa using hb
    have ht : t.countP (hitsPlayer pp) = 0 := by
      simpa [he] using h
    show guardCollisions t pp (guardHit pp init e) = init
    rw [guardHit_not_hit _ _ _ he, ih _ ht]

/-- With exactly one matching guard, the collision loop is one `hitUpdate`. -/
theorem guardCollisions_one_hit (l : List Thing) (pp : Nat × Nat) (init : CollisionOut)
    (h : l.countP (hitsPlayer pp) = 1) : guardCollisions l pp init = hitUpdate init := by
  induction l generalizing init with
  | nil => simp at h
  | cons e t ih =>
    rw [List.countP_cons] at h
    by_cases he : hitsPlayer pp e
    · have ht : t.countP (hitsPlayer pp) = 0 := by
        rw [if_pos he] at h
        omega
      show guardCollisions t pp (guardHit pp init e) = hitUpdate init
      rw [guardHit_hit _ _ _ he, guardCollisions_no_hit _ _ _ ht]
    · have he2 : hitsPlayer pp e = false := by simpa using he
      have ht : t.countP (hitsPlayer pp) = 1 := by simpa [he2] using h
      show guardCollisions t pp (guardHit pp init e) = hitUpdate init
      rw [guardHit_not_hit _ _ _ he2, ih _ ht]

/-- A (0,0) move commits the entity's own position back unchanged (or fails),
so the map is unchanged either way. -/
theorem move_entity_zero (m : GameMap) (which : Nat) :
    (move_entity m which 0 0).1 = m := by
  unfold move_entity
  dsimp only
  split
  · rfl
  · split
    · rfl
    · show ({ m with entities := m.entities.set which _ } : GameMap) = m
      have hpos :
          ({ m.entities.getD which defaultThing with
              position :=
                (((((m.entities.getD which defaultThing).position.1 : Int) + 0).toNat,
                  ((((m.entities.getD which defaultThing).position.2 : Int) + 0)).toNat)) } : Thing)
            = m.entities.getD which defaultThing := by
        rcases h : m.entities.getD which defaultThing with ⟨⟨px, py⟩, tt⟩
        simp
      rw [hpos]
      by_cases hw : which < m.entities.length
      · rw [set_getD_self _ _ _ hw]
      · rw [set_of_length_le _ _ _ (by omega)]

/-- The adversary loop is the identity when the map has a single entity. -/
theorem adversaryMoves_single (m : GameMap) (draws : List (Int × Int))
    (h : m.entities.length = 1) : adversaryMoves m draws = m := by
  unfold adversaryMoves
  rw [h]
  rfl

/-- Claim C8: GameOver is terminal — once the game-over flag is true, every
subsequent non-quit key press is absorbed as a no-op (the loop iteration is a
`continue` that moves no entity and changes no health, key-set, tile or
current-map state), until the Esc (quit) key ends the loop. -/
theorem C8_game_over_absorbs (s : GameState) (code : KeyCode) (draws : List (Int × Int))
    (hgo : s.game_over = true) (hcode : code ≠ KeyCode.Esc) :
    loopStep s code draws = LoopOut.skipped s ∧
    loopStep s KeyCode.Esc draws = LoopOut.brk := by
  constructor
  · unfold loopStep
    rw [if_neg hcode, hgo]
    rfl
  · rfl

/-- Witness for C8 at a concrete game-over state: the Other key is absorbed
with the state intact and Esc breaks the loop. -/
theorem C8_game_over_absorbs_witness :
    loopStep { twoGuardState with game_over := true } KeyCode.Other [] =
      LoopOut.skipped { twoGuardState with game_over := true } ∧
    loopStep { twoGuardState with game_over := true } KeyCode.Esc [] = LoopOut.brk :=
  C8_game_over_absorbs { twoGuardState with game_over := true } KeyCode.Other []
    (by decide) (by decide)

/-- Claim C1 fails as stated: taking the grid width to be the tile-row length
81, the candidate (80, 0) of a right move from (79, 0) lies inside
[0,81) x [0,23) and on an Empty (not Wall) tile, yet `move_entity` returns
false and mutates nothing — the code checks the x coordinate against 80, not
81. -/
theorem C1_counterexample :
    candidate { tiles := fullEmptyGrid, entities := [mkPrisoner (79, 0)] } 0 1 0 = (80, 0) ∧
    ((0 : Int) ≤ 80 ∧ (80 : Int) < 81 ∧ (0 : Int) ≤ 0 ∧ (0 : Int) < 23) ∧
    tileAt { tiles := fullEmptyGrid, entities := [mkPrisoner (79, 0)] } 0 80 ≠ Tile.Wall ∧
    (move_entity { tiles := fullEmptyGrid, entities := [mkPrisoner (79, 0)] } 0 1 0).2
      = false ∧
    (move_entity { tiles := fullEmptyGrid, entities := [mkPrisoner (79, 0)] } 0 1 0).1
      = { tiles := fullEmptyGrid, entities := [mkPrisoner (79, 0)] } := by
  exact ⟨by decide, by decide, by decide, by decide, by decide⟩

/-- Claim C1 (amended): for every valid entity index and every delta,
`move_entity` returns false with no mutation exactly when the candidate
position falls outside [0,80) x [0,23) — the x bound is 80, one less than the
tile-row length 81 (column 80 only ever holds the newline padding of the map
text) — or the candidate lands on a Wall tile; otherwise it overwrites the
entity's position with the candidate and returns true, so the committed
position always lies inside [0,80) x [0,23) and never on a Wall tile. -/
theorem C1_move_entity_bounds (m : GameMap) (which : Nat) (dx dy : Int)
    (hw : which < m.entities.length) :
    ((move_entity m which dx dy).2 = false ↔
      ¬(0 ≤ (candidate m which dx dy).1 ∧ (candidate m which dx dy).1 < 80 ∧
        0 ≤ (candidate m which dx dy).2 ∧ (candidate m which dx dy).2 < 23) ∨
      tileAt m (candidate m which dx dy).2.toNat (candidate m which dx dy).1.toNat
        = Tile.Wall) ∧
    ((move_entity m which dx dy).2 = false → (move_entity m which dx dy).1 = m) ∧
    ((move_entity m which dx dy).2 = true →
      ((move_entity m which dx dy).1.entities.getD which defaultThing).position =
        ((candidate m which dx dy).1.toNat, (candidate m which dx dy).2.toNat) ∧
      ((move_entity m which dx dy).1.entities.getD which defaultThing).position.1 < 80 ∧
      ((move_entity m which dx dy).1.entities.getD which defaultThing).position.2 < 23 ∧
      tileAt (move_entity m which dx dy).1
          ((move_entity m which dx dy).1.entities.getD which defaultThing).position.2
          ((move_entity m which dx dy).1.entities.getD which defaultThing).position.1
        ≠ Tile.Wall) := by
  have hme : move_entity m which dx dy =
      (if ¬(0 ≤ (candidate m which dx dy).1 ∧ (candidate m which dx dy).1 < 80) ∨
          ¬(0 ≤ (candidate m which dx dy).2 ∧ (candidate m which dx dy).2 < 23) then
        (m, false)
      else if tileAt m (candidate m which dx dy).2.toNat (candidate m which dx dy).1.toNat
          = Tile.Wall then
        (m, false)
      else
        ({ m with entities := m.entities.set which (movedThing m which dx dy) }, true)) :=
    rfl
  rw [hme]
  by_cases h1 : ¬(0 ≤ (candidate m which dx dy).1 ∧ (candidate m which dx dy).1 < 80) ∨
      ¬(0 ≤ (candidate m which dx dy).2 ∧ (candidate m which dx dy).2 < 23)
  · rw [if_pos h1]
    exact ⟨iff_of_true rfl (Or.inl (by tauto)), fun _ => rfl, fun hc => by simp at hc⟩
  · rw [if_neg h1]
    push_neg at h1
    by_cases h2 : tileAt m (candidate m which dx dy).2.toNat
        (candidate m which dx dy).1.toNat = Tile.Wall
    · rw [if_pos h2]
      exact ⟨iff_of_true rfl (Or.inr h2), fun _ => rfl, fun hc => by simp at hc⟩
    · rw [if_neg h2]
      have hpos : ((m.entities.set which (movedThing m which dx dy)).getD which defaultThing)
          = movedThing m which dx dy :=
        getD_set_self _ _ _ _ hw
      refine ⟨?_, fun hc => by simp at hc, fun _ => ?_⟩
      · refine iff_of_false (by simp) ?_
        rintro (hc | hc)
        · exact hc ⟨h1.1.1, h1.1.2, h1.2.1, h1.2.2⟩
        · exact h2 hc
      · refine ⟨?_, ?_, ?_, ?_⟩
        · show ((m.entities.set which (movedThing m which dx dy)).getD which
              defaultThing).position = _
          rw [hpos]
          rfl
        · show ((m.entities.set which (movedThing m which dx dy)).getD which
              defaultThing).position.1 < 80
          rw [hpos]
          show (candidate m which dx dy).1.toNat < 80
          obtain ⟨hx1, hx2⟩ := h1.1
          omega
        · show ((m.entities.set which (movedThing m which dx dy)).getD which
              defaultThing).position.2 < 23
          rw [hpos]
          show (candidate m which dx dy).2.toNat < 23
          obtain ⟨hy1, hy2⟩ := h1.2
          omega
        · show tileAt { m with entities := m.entities.set which (movedThing m which dx dy) }
              ((m.entities.set which (movedThing m which dx dy)).getD which
                defaultThing).position.2
              ((m.entities.set which (movedThing m which dx dy)).getD which
                defaultThing).position.1 ≠ Tile.Wall
          rw [hpos]
          show tileAt { m with entities := m.entities.set which (movedThing m which dx dy) }
              (candidate m which dx dy).2.toNat (candidate m which dx dy).1.toNat ≠ Tile.Wall
          exact h2

/-- Witness for C1 (amended) at a concrete input: index 0 of a one-entity map,
move right from (5, 5) on an all-Empty grid. -/
theorem C1_move_entity_bounds_witness :
    0 < plainMap.entities.length ∧
    (((move_entity plainMap 0 1 0).2 = false ↔
      ¬(0 ≤ (candidate plainMap 0 1 0).1 ∧ (candidate plainMap 0 1 0).1 < 80 ∧
        0 ≤ (candidate plainMap 0 1 0).2 ∧ (candidate plainMap 0 1 0).2 < 23) ∨
      tileAt plainMap (candidate plainMap 0 1 0).2.toNat (candidate plainMap 0 1 0).1.toNat
        = Tile.Wall) ∧
    ((move_entity plainMap 0 1 0).2 = false → (move_entity plainMap 0 1 0).1 = plainMap) ∧
    ((move_entity plainMap 0 1 0).2 = true →
      ((move_entity plainMap 0 1 0).1.entities.getD 0 defaultThing).position =
        ((candidate plainMap 0 1 0).1.toNat, (candidate plainMap 0 1 0).2.toNat) ∧
      ((move_entity plainMap 0 1 0).1.entities.getD 0 defaultThing).position.1 < 80 ∧
      ((move_entity plainMap 0 1 0).1.entities.getD 0 defaultThing).position.2 < 23 ∧
      tileAt (move_entity plainMap 0 1 0).1
          ((move_entity plainMap 0 1 0).1.entities.getD 0 defaultThing).position.2
          ((move_entity plainMap 0 1 0).1.entities.getD 0 defaultThing).position.1
        ≠ Tile.Wall)) :=
  ⟨by decide, C1_move_entity_bounds plainMap 0 1 0 (by decide)⟩

/-- Claim C10: `Map::move_entity` examines only the destination tile, never the
intermediate ones: for an adversary-range delta (dx or dy equal to plus or
minus 2) whose candidate destination is inside [0,80) x [0,23) and not a Wall,
the move succeeds and commits the candidate even when every other in-grid cell
— in particular every cell strictly between start and destination — is a Wall
tile. -/
theorem C10_destination_only (m : GameMap) (which : Nat) (dx dy : Int)
    (hw : which < m.entities.length)
    (hdelta : dx = 2 ∨ dx = -2 ∨ dy = 2 ∨ dy = -2)
    (hx : 0 ≤ (candidate m which dx dy).1 ∧ (candidate m which dx dy).1 < 80)
    (hy : 0 ≤ (candidate m which dx dy).2 ∧ (candidate m which dx dy).2 < 23)
    (hdest : tileAt m (candidate m which dx dy).2.toNat (candidate m which dx dy).1.toNat
      ≠ Tile.Wall)
    (hwalls : ∀ ay : Nat, ay < 23 → ∀ ax : Nat, ax < 81 →
      ¬(ay = (candidate m which dx dy).2.toNat ∧ ax = (candidate m which dx dy).1.toNat) →
      tileAt m ay ax = Tile.Wall) :
    (move_entity m which dx dy).2 = true ∧
    ((move_entity m which dx dy).1.entities.getD which defaultThing).position =
      ((candidate m which dx dy).1.toNat, (candidate m which dx dy).2.toNat) := by
  have hme : move_entity m which dx dy =
      (if ¬(0 ≤ (candidate m which dx dy).1 ∧ (candidate m which dx dy).1 < 80) ∨
          ¬(0 ≤ (candidate m which dx dy).2 ∧ (candidate m which dx dy).2 < 23) then
        (m, false)
      else if tileAt m (candidate m which dx dy).2.toNat (candidate m which dx dy).1.toNat
          = Tile.Wall then
        (m, false)
      else
        ({ m with entities := m.entities.set which (movedThing m which dx dy) }, true)) :=
    rfl
  rw [hme, if_neg (fun hc => hc.elim (fun hna => hna hx) (fun hnb => hnb hy)), if_neg hdest]
  refine ⟨rfl, ?_⟩
  show ((m.entities.set which (movedThing m which dx dy)).getD which defaultThing).position = _
  rw [getD_set_self _ _ _ _ hw]
  rfl

/-- Witness for C10 at a concrete input: a guard at (1, 5) on an all-Wall map
whose only Empty tile is the destination (3, 5); the strictly-between cell
(2, 5) is a Wall, and the dx = 2 move still succeeds. -/
theorem C10_destination_only_witness :
    0 < wallTestMap.entities.length ∧
    ((move_entity wallTestMap 0 2 0).2 = true ∧
    ((move_entity wallTestMap 0 2 0).1.entities.getD 0 defaultThing).position =
      ((candidate wallTestMap 0 2 0).1.toNat, (candidate wallTestMap 0 2 0).2.toNat)) :=
  ⟨by decide,
   C10_destination_only wallTestMap 0 2 0 (by decide) (Or.inl rfl) (by decide) (by decide)
     (by decide) (by decide)⟩

/-- Claim C3: health is claimed to stay in [0,100] even when more than two
guards occupy the player's position in one turn.  The code violates this: from
health 100, the third matching guard of the same collision loop executes
`health -= 50` with health already 0, which underflows the usize — the health
after the turn is 2^64 - 50 (release semantics; a debug build panics), far
outside [0,100], even though the game-over flag was already set. -/
theorem C3_health_underflow :
    threeGuardState.prisoner_state.health = 100 ∧
    (runTurn threeGuardState KeyCode.Other [(0, 0), (0, 0), (0, 0)]).1.prisoner_state.health
      = 18446744073709551566 ∧
    ¬((runTurn threeGuardState KeyCode.Other
        [(0, 0), (0, 0), (0, 0)]).1.prisoner_state.health ≤ 100) ∧
    (runTurn threeGuardState KeyCode.Other [(0, 0), (0, 0), (0, 0)]).1.game_over = true := by
  exact ⟨by decide, by decide, by decide, by decide⟩

/-- Claim C4: the invariant 0 ≤ currentMap < maps.length is claimed to survive
a door transition taken while currentMap is already the last index.  The code
violates this: on the last map (index 2 of 3), stepping on an unlocked
non-exit door sets current_map = 3 = maps.length and then panics indexing
`world.maps[3]` to insert the player (recorded by the `panicked` flag); the
invariant is false at the panic point. -/
theorem C4_transition_out_of_range :
    lastMapDoorState.world.current_map = 2 ∧
    lastMapDoorState.world.maps.length = 3 ∧
    (runTurn lastMapDoorState KeyCode.Other []).1.panicked = true ∧
    (runTurn lastMapDoorState KeyCode.Other []).1.world.current_map =
      (runTurn lastMapDoorState KeyCode.Other []).1.world.maps.length ∧
    ¬((runTurn lastMapDoorState KeyCode.Other []).1.world.current_map <
      (runTurn lastMapDoorState KeyCode.Other []).1.world.maps.length) := by
  exact ⟨by decide, by decide, by decide, by decide, by decide⟩

/-- Claim C2 fails as stated: in a turn in which the player's post-movement
position equals a Guard's post-movement position and health was 100, with TWO
guards on that position the same collision loop runs twice — health drops to
0 (not 50), the game-over flag becomes true, and the status message is
"You died! Game Over" rather than "A guard hit you". -/
theorem C2_counterexample :
    ((afterMoves twoGuardState KeyCode.Other [(0, 0), (0, 0)]).entities.getD 1
        defaultThing).thing_type = ThingType.Guard ∧
    ((afterMoves twoGuardState KeyCode.Other [(0, 0), (0, 0)]).entities.getD 1
        defaultThing).position = playerPosAfter twoGuardState KeyCode.Other [(0, 0), (0, 0)] ∧
    twoGuardState.prisoner_state.health = 100 ∧
    twoGuardState.game_over = false ∧
    ¬((runTurn twoGuardState KeyCode.Other
        [(0, 0), (0, 0)]).1.prisoner_state.health = 50) ∧
    (runTurn twoGuardState KeyCode.Other [(0, 0), (0, 0)]).1.game_over = true ∧
    (runTurn twoGuardState KeyCode.Other [(0, 0), (0, 0)]).2 = "You died! Game Over" := by
  refine ⟨by decide, by decide, by decide, by decide, by decide, by decide, ?_⟩
  rfl

/-- Claim C7 fails as stated: a state with no adversaries on the current map
whose player stands on a Key tile is not left unchanged by a non-directional
command — the Key branch appends the key and clears the tile. -/
theorem C7_counterexample :
    (currentMap keyTileState).entities = [mkPrisoner (0, 0)] ∧
    keyTileState.game_over = false ∧
    ¬((runTurn keyTileState KeyCode.Other []).1.prisoner_state.keys =
      keyTileState.prisoner_state.keys) ∧
    ¬((runTurn keyTileState KeyCode.Other []).1.world.maps.map (fun mp => mp.tiles) =
      keyTileState.world.maps.map (fun mp => mp.tiles)) := by
  exact ⟨by decide, by decide, by decide, by decide⟩

/-- The collision phase of a turn never touches the key list. -/
theorem collisionOut_keys (s : GameState) (code : KeyCode) (draws : List (Int × Int)) :
    (collisionOut s code draws).ps.keys = s.prisoner_state.keys :=
  guardCollisions_keys _ _ _

/-- After `setTile rows y x Empty`, reading back (y, x) gives Empty (also when
the write was out of range, since the read then falls back to the default). -/
theorem getD_setTile_self (rows : List (List Tile)) (y x : Nat) :
    ((setTile rows y x Tile.Empty).getD y []).getD x Tile.Empty = Tile.Empty := by
  unfold setTile
  by_cases hy : y < rows.length
  · rw [getD_set_self _ _ _ _ hy]
    by_cases hx : x < (rows.getD y []).length
    · rw [getD_set_self _ _ _ _ hx]
    · rw [set_of_length_le _ _ _ (by omega), getD_of_length_le _ _ _ (by omega)]
  · rw [set_of_length_le _ _ _ (by omega), getD_of_length_le rows y [] (by omega)]
    rfl

/-- `hitUpdate` from health 100: health drops to 50 with the hit message. -/
theorem hitUpdate_at_100 (keys : List DoorID) (go : Bool) (st : String) :
    hitUpdate { ps := { keys := keys, health := 100 }, game_over := go, status := st } =
      { ps := { keys := keys, health := 50 }, game_over := go, status := "A guard hit you" } := by
  show (if usizeSub 100 50 = 0 then
          ({ ps := { keys := keys, health := usizeSub 100 50 },
             game_over := true, status := "You died! Game Over" } : CollisionOut)
        else
          { ps := { keys := keys, health := usizeSub 100 50 },
            game_over := go, status := "A guard hit you" }) =
      { ps := { keys := keys, health := 50 }, game_over := go, status := "A guard hit you" }
  rw [show usizeSub 100 50 = 50 from by decide, if_neg (by decide)]

/-- `hitUpdate` from health 50: health drops to 0 with the death message and
the game-over flag. -/
theorem hitUpdate_at_50 (keys : List DoorID) (go : Bool) (st : String) :
    hitUpdate { ps := { keys := keys, health := 50 }, game_over := go, status := st } =
      { ps := { keys := keys, health := 0 },
        game_over := true, status := "You died! Game Over" } := by
  show (if usizeSub 50 50 = 0 then
          ({ ps := { keys := keys, health := usizeSub 50 50 },
             game_over := true, status := "You died! Game Over" } : CollisionOut)
        else
          { ps := { keys := keys, health := usizeSub 50 50 },
            game_over := go, status := "A guard hit you" }) =
      { ps := { keys := keys, health := 0 },
        game_over := true, status := "You died! Game Over" }
  rw [show usizeSub 50 50 = 0 from by decide, if_pos rfl]

/-- Claim C5: whenever the player's post-movement tile is Door(3), the turn
sets the game-over flag and the success status message, regardless of the key
set (no key hypothesis appears below); the door resolution itself changes
nothing else — current map index, key set and all tile grids are unchanged,
and health is exactly what the collision phase of the same turn left. -/
theorem C5_exit_door (s : GameState) (code : KeyCode) (draws : List (Int × Int))
    (hcm : s.world.current_map < s.world.maps.length)
    (hne : (currentMap s).entities ≠ [])
    (hdoor : playerTileAfter s code draws = Tile.Door (DoorID.mk 3)) :
    (runTurn s code draws).1.game_over = true ∧
    (runTurn s code draws).2 = "You made it out! Enjoy your freedom          " ∧
    (runTurn s code draws).1.world.current_map = s.world.current_map ∧
    (runTurn s code draws).1.prisoner_state.keys = s.prisoner_state.keys ∧
    (runTurn s code draws).1.world.maps.map (fun mp => mp.tiles) =
      s.world.maps.map (fun mp => mp.tiles) ∧
    (runTurn s code draws).1.prisoner_state.health =
      (collisionOut s code draws).ps.health ∧
    (runTurn s code draws).1.panicked = s.panicked := by
  have hrt : runTurn s code draws =
      ({ world := { maps := s.world.maps.set s.world.current_map (afterMoves s code draws),
                    current_map := s.world.current_map },
         prisoner_state := (collisionOut s code draws).ps,
         game_over := true, panicked := s.panicked },
       "You made it out! Enjoy your freedom          ") := by
    unfold runTurn
    rw [if_pos ⟨hcm, hne⟩]
    unfold resolveTile
    rw [hdoor]
    rfl
  rw [hrt]
  exact ⟨rfl, rfl, rfl, collisionOut_keys s code draws,
    map_tiles_set _ _ _ (afterMoves_tiles s code draws) hcm, rfl, rfl⟩

/-- Witness for C5 at a concrete input: the player stands on Door(3) with an
empty key set, no guards; the Other key ends the game with the success
message. -/
theorem C5_exit_door_witness :
    (runTurn exitDoorState KeyCode.Other []).1.game_over = true ∧
    (runTurn exitDoorState KeyCode.Other []).2 =
      "You made it out! Enjoy your freedom          " ∧
    (runTurn exitDoorState KeyCode.Other []).1.world.current_map =
      exitDoorState.world.current_map ∧
    (runTurn exitDoorState KeyCode.Other []).1.prisoner_state.keys =
      exitDoorState.prisoner_state.keys ∧
    (runTurn exitDoorState KeyCode.Other []).1.world.maps.map (fun mp => mp.tiles) =
      exitDoorState.world.maps.map (fun mp => mp.tiles) ∧
    (runTurn exitDoorState KeyCode.Other []).1.prisoner_state.health =
      (collisionOut exitDoorState KeyCode.Other []).ps.health ∧
    (runTurn exitDoorState KeyCode.Other []).1.panicked = exitDoorState.panicked :=
  C5_exit_door exitDoorState KeyCode.Other [] (by decide) (by decide) (by decide)

/-- Claim C6: key pickup is exactly-once.  A turn whose post-movement tile is
Key(d) appends d to the key set (a Vec push, so even a duplicate id is
appended) and replaces that tile by Empty, with the pickup message and no map
change; a turn whose post-movement tile is Empty — which every revisit of a
picked-up position is — changes neither the key set nor any tile grid. -/
theorem C6_key_pickup (s : GameState) (code : KeyCode) (draws : List (Int × Int)) (d : DoorID)
    (hcm : s.world.current_map < s.world.maps.length)
    (hne : (currentMap s).entities ≠ []) :
    (playerTileAfter s code draws = Tile.Key d →
      (runTurn s code draws).1.prisoner_state.keys = s.prisoner_state.keys ++ [d] ∧
      tileAt (currentMap (runTurn s code draws).1)
        (playerPosAfter s code draws).2 (playerPosAfter s code draws).1 = Tile.Empty ∧
      (runTurn s code draws).2 = "You collected a key!                   " ∧
      (runTurn s code draws).1.world.current_map = s.world.current_map) ∧
    (playerTileAfter s code draws = Tile.Empty →
      (runTurn s code draws).1.prisoner_state.keys = s.prisoner_state.keys ∧
      (runTurn s code draws).1.world.maps.map (fun mp => mp.tiles) =
        s.world.maps.map (fun mp => mp.tiles)) := by
  constructor
  · intro hkey
    have hrt : runTurn s code draws =
        ({ world := { maps := s.world.maps.set s.world.current_map (pickedMap s code draws),
                      current_map := s.world.current_map },
           prisoner_state := { keys := (collisionOut s code draws).ps.keys ++ [d],
                               health := (collisionOut s code draws).ps.health },
           game_over := (collisionOut s code draws).game_over, panicked := s.panicked },
         "You collected a key!                   ") := by
      unfold runTurn
      rw [if_pos ⟨hcm, hne⟩]
      unfold resolveTile
      rw [hkey]
      rfl
    rw [hrt]
    refine ⟨?_, ?_, rfl, rfl⟩
    · rw [collisionOut_keys]
    · show ((((s.world.maps.set s.world.current_map (pickedMap s code draws))).getD
          s.world.current_map emptyMap).tiles.getD (playerPosAfter s code draws).2 []).getD
          (playerPosAfter s code draws).1 Tile.Empty = Tile.Empty
      rw [getD_set_self _ _ _ _ hcm]
      exact getD_setTile_self _ _ _
  · intro hemp
    have hrt : runTurn s code draws =
        ({ world := { maps := s.world.maps.set s.world.current_map (afterMoves s code draws),
                      current_map := s.world.current_map },
           prisoner_state := (collisionOut s code draws).ps,
           game_over := (collisionOut s code draws).game_over, panicked := s.panicked },
         (collisionOut s code draws).status) := by
      unfold runTurn
      rw [if_pos ⟨hcm, hne⟩]
      unfold resolveTile
      rw [hemp]
    rw [hrt]
    exact ⟨collisionOut_keys s code draws,
      map_tiles_set _ _ _ (afterMoves_tiles s code draws) hcm⟩

/-- Witness for C6 at a concrete input: the player stands on a Key(2) tile;
running the theorem's first branch shows the pickup happens. -/
theorem C6_key_pickup_witness :
    (playerTileAfter keyTileState KeyCode.Other [] = Tile.Key (DoorID.mk 2) →
      (runTurn keyTileState KeyCode.Other []).1.prisoner_state.keys =
        keyTileState.prisoner_state.keys ++ [DoorID.mk 2] ∧
      tileAt (currentMap (runTurn keyTileState KeyCode.Other []).1)
        (playerPosAfter keyTileState KeyCode.Other []).2
        (playerPosAfter keyTileState KeyCode.Other []).1 = Tile.Empty ∧
      (runTurn keyTileState KeyCode.Other []).2 = "You collected a key!                   " ∧
      (runTurn keyTileState KeyCode.Other []).1.world.current_map =
        keyTileState.world.current_map) ∧
    (playerTileAfter keyTileState KeyCode.Other [] = Tile.Empty →
      (runTurn keyTileState KeyCode.Other []).1.prisoner_state.keys =
        keyTileState.prisoner_state.keys ∧
      (runTurn keyTileState KeyCode.Other []).1.world.maps.map (fun mp => mp.tiles) =
        keyTileState.world.maps.map (fun mp => mp.tiles)) :=
  C6_key_pickup keyTileState KeyCode.Other [] (DoorID.mk 2) (by decide) (by decide)

/-- Claim C9: for every unlocked non-exit door, the destination map index is
always current_map + 1 — the door id never selects the map.  The id only
selects the fixed entry position ((6,0) for Door(1), (74,0) for Door(0),
(40,0) otherwise) and the status message. -/
theorem C9_door_destination (s : GameState) (code : KeyCode) (draws : List (Int × Int))
    (d : DoorID)
    (hcm : s.world.current_map < s.world.maps.length)
    (hne : (currentMap s).entities ≠ [])
    (hdoor : playerTileAfter s code draws = Tile.Door d)
    (hnot3 : d ≠ DoorID.mk 3)
    (hkey : d ∈ s.prisoner_state.keys)
    (hdst : s.world.current_map + 1 < s.world.maps.length) :
    (runTurn s code draws).1.world.current_map = s.world.current_map + 1 ∧
    ((currentMap (runTurn s code draws).1).entities.getD 0 defaultThing).position =
      (if d = DoorID.mk 1 then (6, 0) else if d = DoorID.mk 0 then (74, 0) else (40, 0)) ∧
    (runTurn s code draws).2 =
      (if d = DoorID.mk 1 then "You are entering the infirmary              "
       else if d = DoorID.mk 0 then "You are entering the cafeteria              "
       else "Find your way through the tunnels                   ") := by
  have hkey2 : d ∈ (collisionOut s code draws).ps.keys := by
    rw [collisionOut_keys]
    exact hkey
  have hrt : runTurn s code draws =
      ({ world := { maps := (s.world.maps.set s.world.current_map
                      (srcMapAfter s code draws)).set (s.world.current_map + 1)
                      (dstMapAfter s code draws d),
                    current_map := s.world.current_map + 1 },
         prisoner_state := (collisionOut s code draws).ps,
         game_over := (collisionOut s code draws).game_over, panicked := s.panicked },
       doorMsg d) := by
    unfold runTurn
    rw [if_pos ⟨hcm, hne⟩]
    unfold resolveTile
    rw [hdoor]
    show (if d = DoorID.mk 3 then _ else if d ∈ (collisionOut s code draws).ps.keys
        then _ else _) = _
    rw [if_neg hnot3, if_pos hkey2]
    show (if s.world.current_map + 1 <
        (s.world.maps.set s.world.current_map (srcMapAfter s code draws)).length
        then _ else _) = _
    rw [List.length_set, if_pos hdst]
    rfl
  rw [hrt]
  refine ⟨rfl, ?_, rfl⟩
  show (((((s.world.maps.set s.world.current_map (srcMapAfter s code draws)).set
      (s.world.current_map + 1) (dstMapAfter s code draws d))).getD
      (s.world.current_map + 1) emptyMap).entities.getD 0 defaultThing).position = _
  rw [getD_set_self _ _ _ _ (by rw [List.length_set]; exact hdst)]
  rfl

/-- Witness for C9 at a concrete input: the player on Door(0) of map 0 (of 2)
with DoorID 0 collected is moved to map 1 at the cafeteria entry (74, 0). -/
theorem C9_door_destination_witness :
    (runTurn doorTransitionState KeyCode.Other [(0, 0)]).1.world.current_map =
      doorTransitionState.world.current_map + 1 ∧
    ((currentMap (runTurn doorTransitionState KeyCode.Other
        [(0, 0)]).1).entities.getD 0 defaultThing).position =
      (if DoorID.mk 0 = DoorID.mk 1 then (6, 0)
       else if DoorID.mk 0 = DoorID.mk 0 then (74, 0) else (40, 0)) ∧
    (runTurn doorTransitionState KeyCode.Other [(0, 0)]).2 =
      (if DoorID.mk 0 = DoorID.mk 1 then "You are entering the infirmary              "
       else if DoorID.mk 0 = DoorID.mk 0 then "You are entering the cafeteria              "
       else "Find your way through the tunnels                   ") :=
  C9_door_destination doorTransitionState KeyCode.Other [(0, 0)] (DoorID.mk 0)
    (by decide) (by decide) (by decide) (by decide) (by decide) (by decide)

/-- Claim C2 (amended): in a turn in which exactly one Guard's post-movement
position equals the player's post-movement position, the game was not over,
and the player's post-movement tile is Empty (so no Door or Key resolution
overwrites the collision outcome): if health was 100 it becomes 50, the
game-over flag stays false and the status message is "A guard hit you"; if
health was 50 (the second such collision of a run) it becomes 0, the game-over
flag becomes true and the status message is "You died! Game Over". -/
theorem C2_guard_hit (s : GameState) (code : KeyCode) (draws : List (Int × Int))
    (hcm : s.world.current_map < s.world.maps.length)
    (hne : (currentMap s).entities ≠ [])
    (hgo : s.game_over = false)
    (hone : ((afterMoves s code draws).entities.drop 1).countP
        (hitsPlayer (playerPosAfter s code draws)) = 1)
    (htile : playerTileAfter s code draws = Tile.Empty) :
    (s.prisoner_state.health = 100 →
      (runTurn s code draws).1.prisoner_state.health = 50 ∧
      (runTurn s code draws).1.game_over = false ∧
      (runTurn s code draws).2 = "A guard hit you") ∧
    (s.prisoner_state.health = 50 →
      (runTurn s code draws).1.prisoner_state.health = 0 ∧
      (runTurn s code draws).1.game_over = true ∧
      (runTurn s code draws).2 = "You died! Game Over") := by
  have hrt : runTurn s code draws =
      ({ world := { maps := s.world.maps.set s.world.current_map (afterMoves s code draws),
                    current_map := s.world.current_map },
         prisoner_state := (collisionOut s code draws).ps,
         game_over := (collisionOut s code draws).game_over, panicked := s.panicked },
       (collisionOut s code draws).status) := by
    unfold runTurn
    rw [if_pos ⟨hcm, hne⟩]
    unfold resolveTile
    rw [htile]
  have hc : collisionOut s code draws =
      hitUpdate { ps := s.prisoner_state, game_over := s.game_over, status := blankStatus } := by
    unfold collisionOut
    exact guardCollisions_one_hit _ _ _ hone
  rw [hrt, hc, hgo]
  constructor
  · intro h100
    have hps : s.prisoner_state = { keys := s.prisoner_state.keys, health := 100 } := by
      rw [← h100]
    rw [hps, hitUpdate_at_100]
    exact ⟨rfl, rfl, rfl⟩
  · intro h50
    have hps : s.prisoner_state = { keys := s.prisoner_state.keys, health := 50 } := by
      rw [← h50]
    rw [hps, hitUpdate_at_50]
    exact ⟨rfl, rfl, rfl⟩

/-- Witness for C2 (amended) at a concrete input: one guard on the player's
tile, health 100, Other key — health drops to 50 with the hit message and the
game continues. -/
theorem C2_guard_hit_witness :
    singleGuardState.prisoner_state.health = 100 ∧
    ((runTurn singleGuardState KeyCode.Other [(0, 0)]).1.prisoner_state.health = 50 ∧
     (runTurn singleGuardState KeyCode.Other [(0, 0)]).1.game_over = false ∧
     (runTurn singleGuardState KeyCode.Other [(0, 0)]).2 = "A guard hit you") :=
  ⟨by decide,
   (C2_guard_hit singleGuardState KeyCode.Other [(0, 0)] (by decide) (by decide)
      (by decide) (by decide) (by decide)).1 (by decide)⟩

/-- Claim C7 (amended): for every state with no adversary entities on the
current map whose player's tile is neither a Key tile, nor Door(3), nor a Door
whose id is in the key set, processing a non-directional command leaves the
whole game state — tiles, entity positions, current map, key set, health and
game-over flag — unchanged (on a locked door only the status message is
produced; on a Key tile, Door(3) or an unlocked door the original claim fails,
see the counterexample). -/
theorem C7_other_noop (s : GameState) (draws : List (Int × Int)) (p : Thing)
    (hcm : s.world.current_map < s.world.maps.length)
    (hent : (currentMap s).entities = [p])
    (hkey : ∀ d : DoorID, tileAt (currentMap s) p.position.2 p.position.1 ≠ Tile.Key d)
    (hdoor : ∀ d : DoorID, tileAt (currentMap s) p.position.2 p.position.1 = Tile.Door d →
      d ≠ DoorID.mk 3 ∧ d ∉ s.prisoner_state.keys) :
    (runTurn s KeyCode.Other draws).1 = s := by
  have hne : (currentMap s).entities ≠ [] := by
    rw [hent]
    exact List.cons_ne_nil p []
  have hAm : afterMoves s KeyCode.Other draws = currentMap s := by
    show adversaryMoves (move_entity (currentMap s) 0 0 0).1 draws = currentMap s
    rw [move_entity_zero]
    exact adversaryMoves_single _ _ (by rw [hent]; rfl)
  have hpp : playerPosAfter s KeyCode.Other draws = p.position := by
    unfold playerPosAfter
    rw [hAm, hent]
    rfl
  have hpt : playerTileAfter s KeyCode.Other draws =
      tileAt (currentMap s) p.position.2 p.position.1 := by
    unfold playerTileAfter
    rw [hAm, hpp]
  have hco : collisionOut s KeyCode.Other draws =
      { ps := s.prisoner_state, game_over := s.game_over, status := blankStatus } := by
    unfold collisionOut
    rw [hAm, hent]
    rfl
  have hset : s.world.maps.set s.world.current_map (currentMap s) = s.world.maps := by
    show s.world.maps.set s.world.current_map (s.world.maps.getD s.world.current_map emptyMap)
        = s.world.maps
    exact set_getD_self _ _ _ hcm
  cases ht : tileAt (currentMap s) p.position.2 p.position.1 with
  | Empty =>
    have hpte : playerTileAfter s KeyCode.Other draws = Tile.Empty := by rw [hpt, ht]
    have hrt : runTurn s KeyCode.Other draws =
        ({ world := { maps := s.world.maps.set s.world.current_map
                        (afterMoves s KeyCode.Other draws),
                      current_map := s.world.current_map },
           prisoner_state := (collisionOut s KeyCode.Other draws).ps,
           game_over := (collisionOut s KeyCode.Other draws).game_over,
           panicked := s.panicked },
         (collisionOut s KeyCode.Other draws).status) := by
      unfold runTurn
      rw [if_pos ⟨hcm, hne⟩]
      unfold resolveTile
      rw [hpte]
    rw [hrt, hco, hAm, hset]
  | Wall =>
    have hptw : playerTileAfter s KeyCode.Other draws = Tile.Wall := by rw [hpt, ht]
    have hrt : runTurn s KeyCode.Other draws =
        ({ world := { maps := s.world.maps.set s.world.current_map
                        (afterMoves s KeyCode.Other draws),
                      current_map := s.world.current_map },
           prisoner_state := (collisionOut s KeyCode.Other draws).ps,
           game_over := (collisionOut s KeyCode.Other draws).game_over,
           panicked := s.panicked },
         (collisionOut s KeyCode.Other draws).status) := by
      unfold runTurn
      rw [if_pos ⟨hcm, hne⟩]
      unfold resolveTile
      rw [hptw]
    rw [hrt, hco, hAm, hset]
  | Key d => exact absurd ht (hkey d)
  | Door d =>
    obtain ⟨h3, hk⟩ := hdoor d ht
    have hptd : playerTileAfter s KeyCode.Other draws = Tile.Door d := by rw [hpt, ht]
    have hk2 : d ∉ (collisionOut s KeyCode.Other draws).ps.keys := by
      rw [collisionOut_keys]
      exact hk
    have hrt : runTurn s KeyCode.Other draws =
        ({ world := { maps := s.world.maps.set s.world.current_map
                        (afterMoves s KeyCode.Other draws),
                      current_map := s.world.current_map },
           prisoner_state := (collisionOut s KeyCode.Other draws).ps,
           game_over := (collisionOut s KeyCode.Other draws).game_over,
           panicked := s.panicked },
         "You need a key or the right key to open this door!          ") := by
      unfold runTurn
      rw [if_pos ⟨hcm, hne⟩]
      unfold resolveTile
      rw [hptd]
      show (if d = DoorID.mk 3 then _
            else if d ∈ (collisionOut s KeyCode.Other draws).ps.keys then _ else _) = _
      rw [if_neg h3, if_neg hk2]
    rw [hrt, hco, hAm, hset]

/-- Witness for C7 (amended) at a concrete input: the player alone on an Empty
tile; the Other key leaves the whole state unchanged. -/
theorem C7_other_noop_witness :
    (runTurn noGuardState KeyCode.Other []).1 = noGuardState :=
  C7_other_noop noGuardState [] (mkPrisoner (5, 5)) (by decide) (by decide)
    (fun d h => by
      rw [show tileAt (currentMap noGuardState) (mkPrisoner (5, 5)).position.2
          (mkPrisoner (5, 5)).position.1 = Tile.Empty from by decide] at h
      exact Tile.noConfusion h)
    (fun d h => by
      rw [show tileAt (currentMap noGuardState) (mkPrisoner (5, 5)).position.2
          (mkPrisoner (5, 5)).position.1 = Tile.Empty from by decide] at h
      exact Tile.noConfusion h)
